import Mathlib

/-!
Verification development for the PolyEdge insider-detection engine.

The repository ships the design documents (ARCHITECTURE.md, README.md,
FEATURES_CHECKLIST), the SQL migration for the markets table and the
TypeScript API client; the Python backend services (insider_detector.py,
data_worker.py) are described by those documents but their bodies are not in
the tree.  The numeric model below therefore embeds the statistics,
classification, scoring and ingestion logic from the documented contracts,
and embeds the API client and the markets schema directly from their sources.

All trade sizes, prices and scores are modelled as rationals; the one place
the backend leaves the rationals is the square root inside the standard
deviation, which the model handles by working with the sample variance and
quantifying over the (real-valued) classifier where the exact z value is
irrelevant.
-/

namespace PolyEdge

/-- Arithmetic mean of a list of rationals; 0 on the empty list
(division by a zero length). -/
def meanOf (l : List ℚ) : ℚ := l.sum / l.length

/-- Sample variance with the N-1 denominator, the square of the standard
deviation computed by the Statistics Accumulator; by the documented contract
it is the sentinel 0 when fewer than 2 samples exist. -/
def sampleVar (l : List ℚ) : ℚ :=
  if l.length < 2 then 0
  else (l.map (fun x => (x - meanOf l) ^ 2)).sum / ((l.length : ℚ) - 1)

/-- Modelled from the spec: the Anomaly Classifier
`classify(tradeSize, mean, stdDev, threshold)` of insider_detector.py
(calculate_z_score), whose body is not in the tree.
zScore = (tradeSize - mean) / stdDev and isFlagged = |zScore| > threshold
when stdDev > 0; the degenerate branch stdDev = 0 returns (0, false). -/
def classify (tradeSize mean stdDev threshold : ℚ) : ℚ × Bool :=
  if 0 < stdDev then
    ((tradeSize - mean) / stdDev,
      decide (|(tradeSize - mean) / stdDev| > threshold))
  else (0, false)

/-- Modelled from the spec: Component A of _calculate_insider_score,
the flagged-trade percentage scaled to 40 points, clamped to its maximum,
0 when the account has no trades. -/
def componentA (totalTrades flaggedCount : ℕ) : ℚ :=
  if totalTrades = 0 then 0
  else min ((flaggedCount : ℚ) / (totalTrades : ℚ) * 40) 40

/-- Modelled from the spec: Component B of _calculate_insider_score,
the average flagged z-score normalised so that z = 9 reaches the 30-point
cap, 0 when the account has no flagged trades. -/
def componentB (flaggedCount : ℕ) (avgFlaggedZ : ℚ) : ℚ :=
  if flaggedCount = 0 then 0 else min (avgFlaggedZ / 9 * 30) 30

/-- Modelled from the spec: Component C of _calculate_insider_score,
the trailing-window flagged percentage scaled to 30 points, clamped,
0 when the window holds no trades. -/
def componentC (recentFlaggedCount recentTotal : ℕ) : ℚ :=
  if recentTotal = 0 then 0
  else min ((recentFlaggedCount : ℚ) / (recentTotal : ℚ) * 30) 30

/-- Modelled from the spec: _calculate_insider_score of insider_detector.py,
whose body is not in the tree.  The three clamped components are summed and
the sum is clamped to 100. -/
def insiderScore (totalTrades flaggedCount : ℕ) (avgFlaggedZ : ℚ)
    (recentFlaggedCount recentTotal : ℕ) : ℚ :=
  min (componentA totalTrades flaggedCount
        + componentB flaggedCount avgFlaggedZ
        + componentC recentFlaggedCount recentTotal) 100

/-- C1. For every trade size, mean, stdDev and threshold: when stdDev > 0 the
classifier returns zScore = (tradeSize - mean) / stdDev and
isFlagged = (|zScore| > threshold); when stdDev = 0 it returns zScore = 0 and
isFlagged = false, so an account with stdDev = 0 never has a trade flagged
regardless of its size. -/
theorem C1_classify_spec (tradeSize mean stdDev threshold : ℚ) :
    (0 < stdDev →
      classify tradeSize mean stdDev threshold =
        ((tradeSize - mean) / stdDev,
          decide (|(tradeSize - mean) / stdDev| > threshold)))
    ∧ classify tradeSize mean 0 threshold = (0, false)
    ∧ (classify tradeSize mean 0 threshold).2 = false := by
  refine ⟨fun h => ?_, ?_, ?_⟩
  · simp [classify, h]
  · simp [classify]
  · simp [classify]

/-- Closed instance of C1_classify_spec at concrete inputs. -/
theorem C1_witness :
    0 < (2 : ℚ) ∧
      classify 10 4 2 3 = ((10 - 4) / 2, decide (|(10 - 4) / (2 : ℚ)| > 3)) ∧
      classify 50000 500 0 3 = (0, false) :=
  ⟨by norm_num,
   ((C1_classify_spec 10 4 2 3).1 (by norm_num)),
   (C1_classify_spec 50000 500 0 3).2.1⟩

/-- C2. The insider score is the sum of the three clamped components,
itself clamped to 100; each component respects its cap; for a nonnegative
average flagged z the result lies in [0, 100]; and an account with zero
trades (hence zero flagged, zero recent) scores exactly 0. -/
theorem C2_score_bounds (totalTrades flaggedCount recentFlaggedCount
    recentTotal : ℕ) (avgFlaggedZ : ℚ) :
    insiderScore totalTrades flaggedCount avgFlaggedZ recentFlaggedCount
        recentTotal =
      min (componentA totalTrades flaggedCount
            + componentB flaggedCount avgFlaggedZ
            + componentC recentFlaggedCount recentTotal) 100
    ∧ componentA totalTrades flaggedCount ≤ 40
    ∧ componentB flaggedCount avgFlaggedZ ≤ 30
    ∧ componentC recentFlaggedCount recentTotal ≤ 30
    ∧ (0 ≤ avgFlaggedZ →
        0 ≤ insiderScore totalTrades flaggedCount avgFlaggedZ
              recentFlaggedCount recentTotal
        ∧ insiderScore totalTrades flaggedCount avgFlaggedZ
              recentFlaggedCount recentTotal ≤ 100)
    ∧ insiderScore 0 0 avgFlaggedZ 0 0 = 0 := by
  have hA0 : 0 ≤ componentA totalTrades flaggedCount := by
    unfold componentA
    split
    · exact le_refl 0
    · exact le_min (by positivity) (by norm_num)
  have hC0 : 0 ≤ componentC recentFlaggedCount recentTotal := by
    unfold componentC
    split
    · exact le_refl 0
    · exact le_min (by positivity) (by norm_num)
  refine ⟨rfl, ?_, ?_, ?_, fun hz => ⟨?_, ?_⟩, ?_⟩
  · unfold componentA
    split
    · norm_num
    · exact min_le_right _ _
  · unfold componentB
    split
    · norm_num
    · exact min_le_right _ _
  · unfold componentC
    split
    · norm_num
    · exact min_le_right _ _
  · have hB0 : 0 ≤ componentB flaggedCount avgFlaggedZ := by
      unfold componentB
      split
      · exact le_refl 0
      · exact le_min (by positivity) (by norm_num)
    unfold insiderScore
    exact le_min (by linarith) (by norm_num)
  · exact min_le_right _ _
  · simp [insiderScore, componentA, componentB, componentC]

/-- Closed instance of C2_score_bounds at concrete inputs. -/
theorem C2_witness :
    0 ≤ (5 : ℚ)
    ∧ 0 ≤ insiderScore 10 2 5 1 4
    ∧ insiderScore 10 2 5 1 4 ≤ 100 :=
  ⟨by norm_num,
   ((C2_score_bounds 10 2 1 4 5).2.2.2.2.1 (by norm_num)).1,
   ((C2_score_bounds 10 2 1 4 5).2.2.2.2.1 (by norm_num)).2⟩

/-- C5. Holding the other arguments fixed, and over the intended domain of a
nonnegative average flagged z-score, the insider score is monotonically
non-decreasing in flaggedCount and in avgFlaggedZ. -/
theorem C5_score_monotone (totalTrades flaggedCount flaggedCount2
    recentFlaggedCount recentTotal : ℕ) (avgFlaggedZ avgFlaggedZ2 : ℚ)
    (hz : 0 ≤ avgFlaggedZ) (hf : flaggedCount ≤ flaggedCount2)
    (hzz : avgFlaggedZ ≤ avgFlaggedZ2) :
    insiderScore totalTrades flaggedCount avgFlaggedZ recentFlaggedCount
        recentTotal
      ≤ insiderScore totalTrades flaggedCount2 avgFlaggedZ recentFlaggedCount
          recentTotal
    ∧ insiderScore totalTrades flaggedCount avgFlaggedZ recentFlaggedCount
        recentTotal
      ≤ insiderScore totalTrades flaggedCount avgFlaggedZ2 recentFlaggedCount
          recentTotal := by
  have hA : componentA totalTrades flaggedCount
      ≤ componentA totalTrades flaggedCount2 := by
    unfold componentA
    split
    · exact le_refl 0
    · have ht : (0 : ℚ) < (totalTrades : ℚ) := by
        have : totalTrades ≠ 0 := by assumption
        exact_mod_cast Nat.pos_of_ne_zero this
      have hff : (flaggedCount : ℚ) ≤ (flaggedCount2 : ℚ) := by
        exact_mod_cast hf
      gcongr
  have hB : componentB flaggedCount avgFlaggedZ
      ≤ componentB flaggedCount2 avgFlaggedZ := by
    unfold componentB
    split
    · split
      · exact le_refl 0
      · exact le_min (by positivity) (by norm_num)
    · have hne : flaggedCount ≠ 0 := by assumption
      have : flaggedCount2 ≠ 0 := by omega
      simp [this]
  have hBz : componentB flaggedCount avgFlaggedZ
      ≤ componentB flaggedCount avgFlaggedZ2 := by
    unfold componentB
    split
    · exact le_refl 0
    · gcongr
  constructor
  · unfold insiderScore
    exact min_le_min (by linarith) le_rfl
  · unfold insiderScore
    exact min_le_min (by linarith) le_rfl

/-- Closed instance of C5_score_monotone at concrete inputs. -/
theorem C5_witness :
    insiderScore 10 2 5 1 4 ≤ insiderScore 10 3 5 1 4
    ∧ insiderScore 10 2 5 1 4 ≤ insiderScore 10 2 6 1 4 :=
  ⟨(C5_score_monotone 10 2 3 1 4 5 5 (by norm_num) (by norm_num)
      (by norm_num)).1,
   (C5_score_monotone 10 2 2 1 4 5 6 (by norm_num) (by norm_num)
      (by norm_num)).2⟩

/-- The full argument tuple of _calculate_insider_score, as persisted in the
account profile counters. -/
structure Counters where
  totalTrades : ℕ
  flaggedCount : ℕ
  avgFlaggedZ : ℚ
  recentFlaggedCount : ℕ
  recentTotal : ℕ
deriving DecidableEq

/-- The insider score as a pure function of the persisted counters. -/
def scoreOfCounters (c : Counters) : ℚ :=
  insiderScore c.totalTrades c.flaggedCount c.avgFlaggedZ
    c.recentFlaggedCount c.recentTotal

/-- A persisted profile row: the counters together with the stored score. -/
structure StoredProfile where
  counters : Counters
  insider_score : ℚ
deriving DecidableEq

/-- Persisting a profile stores the counters and the score computed from
them, never an incrementally patched value. -/
def persistProfile (c : Counters) : StoredProfile :=
  ⟨c, scoreOfCounters c⟩

/-- Recomputing the score after a restart reads only the persisted
counters. -/
def recomputeScore (p : StoredProfile) : ℚ := scoreOfCounters p.counters

/-- C7. The insider score function is deterministic: identical counter inputs
yield identical outputs, and recomputing the score from a persisted profile's
counters reproduces the stored score exactly. -/
theorem C7_score_deterministic (c c2 : Counters) (h : c = c2) :
    scoreOfCounters c = scoreOfCounters c2
    ∧ recomputeScore (persistProfile c) = (persistProfile c).insider_score := by
  subst h
  exact ⟨rfl, rfl⟩

/-- Closed instance of C7_score_deterministic at concrete counters. -/
theorem C7_witness :
    scoreOfCounters ⟨10, 2, 5, 1, 4⟩ = scoreOfCounters ⟨10, 2, 5, 1, 4⟩
    ∧ recomputeScore (persistProfile ⟨10, 2, 5, 1, 4⟩)
        = (persistProfile ⟨10, 2, 5, 1, 4⟩).insider_score :=
  C7_score_deterministic ⟨10, 2, 5, 1, 4⟩ ⟨10, 2, 5, 1, 4⟩ rfl

/-- Natural key of a trade: account wallet + market + upstream transaction
reference, used for deduplication. -/
structure TradeKey where
  wallet : String
  market : String
  txRef : String
deriving DecidableEq

/-- A trade record as returned by the external trade source. -/
structure IncomingTrade where
  key : TradeKey
  size : ℚ
  price : ℚ
  ts : ℤ
deriving DecidableEq

/-- A persisted Trade row: immutable once stored, carrying the z-score and
flag frozen at ingestion time. -/
structure TradeRec where
  key : TradeKey
  size : ℚ
  z_score : ℚ
  is_flagged : Bool
  ts : ℤ
deriving DecidableEq

/-- A trader_profiles row, per the documented schema. -/
structure TraderProfile where
  total_trades : ℕ
  avg_bet_size : ℚ
  max_bet_size : ℚ
  total_volume : ℚ
  flagged_trades_count : ℕ
  insider_score : ℚ
deriving DecidableEq

/-- The persistent store: trades (most recent first) and one profile per
wallet. -/
structure DB where
  trades : List TradeRec
  profiles : List (String × TraderProfile)
deriving DecidableEq

/-- The per-trade numeric classifier, abstracted: zOf gives the z value and
flagOf the flag decision for a trade size against a history window.  The
backend computes z = (size - mean) / std with std a real square root, which
has no exact rational representative, so the ingestion theorems below
quantify over the classifier; the exact Boolean flag decision is isAnomaly
below. -/
structure Classifier where
  zOf : ℚ → List ℚ → ℚ
  flagOf : ℚ → List ℚ → Bool

/-- Exact flag decision of calculate_z_score over rationals: with fewer than
2 samples the trade is never flagged; otherwise, writing v for the sample
variance, |z| > threshold holds exactly when v > 0 and
(size - mean)^2 > threshold^2 * v, since std equals the square root of v. -/
def isAnomaly (threshold size : ℚ) (hist : List ℚ) : Bool :=
  if hist.length < 2 then false
  else decide (0 < sampleVar hist
    ∧ threshold ^ 2 * sampleVar hist < (size - meanOf hist) ^ 2)

/-- Classifier instance used in the concrete instances below: the exact flag
decision at threshold 3, with z value 0 — exact on the degenerate branches
(fewer than 2 samples, or zero variance), the only branches those concrete
instances exercise. -/
def degenerateClassifier : Classifier :=
  ⟨fun _ _ => 0, isAnomaly 3⟩

/-- Window of the most recent (up to) 100 stored trade sizes for a wallet,
the history calculate_z_score queries. -/
def histFor (db : DB) (wallet : String) : List ℚ :=
  (((db.trades.filter fun r => decide (r.key.wallet = wallet)).take 100).map
    fun r => r.size)

/-- Deduplication test: does a stored trade with this natural key exist? -/
def hasKey (db : DB) (k : TradeKey) : Bool :=
  db.trades.any fun r => decide (r.key = k)

/-- All stored trades of one wallet. -/
def tradesOf (db : DB) (wallet : String) : List TradeRec :=
  db.trades.filter fun r => decide (r.key.wallet = wallet)

/-- Transactional upsert of one wallet's profile row. -/
def upsertProfile (wallet : String) (p : TraderProfile)
    (ps : List (String × TraderProfile)) : List (String × TraderProfile) :=
  (wallet, p) :: ps.filter fun q => decide (q.1 ≠ wallet)

/-- Seconds in the trailing recency window of Component C. -/
def SEVEN_DAYS_SECS : ℤ := 7 * 24 * 3600

/-- Modelled from the spec: update_trader_profile recomputes every profile
counter and the insider score from the wallet's stored trades (never
incrementally patched). -/
def profileFromTrades (mine : List TradeRec) (now : ℤ) : TraderProfile :=
  let flagged := mine.filter fun r => r.is_flagged
  let recent := mine.filter fun r => decide (now - SEVEN_DAYS_SECS ≤ r.ts)
  { total_trades := mine.length
    avg_bet_size := meanOf (mine.map fun r => r.size)
    max_bet_size := (mine.map fun r => r.size).foldr max 0
    total_volume := (mine.map fun r => r.size).sum
    flagged_trades_count := flagged.length
    insider_score := insiderScore mine.length flagged.length
      (meanOf (flagged.map fun r => r.z_score))
      (recent.filter fun r => r.is_flagged).length recent.length }

/-- Modelled from the spec: the profile upsert performed after a trade is
stored. -/
def updateTraderProfile (db : DB) (wallet : String) (now : ℤ) : DB :=
  ⟨db.trades,
   upsertProfile wallet (profileFromTrades (tradesOf db wallet) now)
     db.profiles⟩

/-- The Trade row built for a new trade: the z-score and flag are computed
against the wallet's current history window and frozen into the row. -/
def classifyTrade (cls : Classifier) (db : DB) (t : IncomingTrade) :
    TradeRec :=
  ⟨t.key, t.size, cls.zOf t.size (histFor db t.key.wallet),
   cls.flagOf t.size (histFor db t.key.wallet), t.ts⟩

/-- Modelled from ARCHITECTURE.md (_process_single_trade of data_worker.py,
whose body is not in the tree): 1. check existence by natural key and skip
duplicates; 2.-3. compute z-score and flag and insert the Trade row;
4. if flagged, call update_trader_profile. -/
def processSingleTrade (cls : Classifier) (now : ℤ) (db : DB)
    (t : IncomingTrade) : DB :=
  if hasKey db t.key then db
  else if (classifyTrade cls db t).is_flagged then
    updateTraderProfile ⟨classifyTrade cls db t :: db.trades, db.profiles⟩
      t.key.wallet now
  else ⟨classifyTrade cls db t :: db.trades, db.profiles⟩

/-- The documented profile invariant: no profile row counts more flagged
trades than total trades. -/
def ProfileInv (db : DB) : Prop :=
  ∀ p ∈ db.profiles, p.2.flagged_trades_count ≤ p.2.total_trades

/-- A profile recomputed from a list of stored trades counts its flagged
trades by filtering that list, so it satisfies the invariant. -/
theorem profileFromTrades_inv (mine : List TradeRec) (now : ℤ) :
    (profileFromTrades mine now).flagged_trades_count
      ≤ (profileFromTrades mine now).total_trades :=
  List.length_filter_le _ _

/-- The profile upsert preserves the invariant. -/
theorem profileInv_update (db : DB) (wallet : String) (now : ℤ)
    (h : ProfileInv db) : ProfileInv (updateTraderProfile db wallet now) := by
  intro p hp
  rcases List.mem_cons.1 hp with hp1 | hp2
  · subst hp1
    exact profileFromTrades_inv _ _
  · exact h p (List.mem_filter.1 hp2).1

/-- One ingestion step preserves the invariant. -/
theorem profileInv_step (cls : Classifier) (now : ℤ) (db : DB)
    (t : IncomingTrade) (h : ProfileInv db) :
    ProfileInv (processSingleTrade cls now db t) := by
  unfold processSingleTrade
  split
  · exact h
  · split
    · exact profileInv_update _ _ _ h
    · exact h

/-- C4. Re-ingesting a trade whose natural key is already persisted is a
no-op: the store — trades and all profile rows, hence the stored trade count
and every profile counter — is unchanged. -/
theorem C4_reingest_noop (cls : Classifier) (now : ℤ) (db : DB)
    (t : IncomingTrade) (h : hasKey db t.key = true) :
    processSingleTrade cls now db t = db := by
  simp [processSingleTrade, h]

/-- Closed instance of C4_reingest_noop: a stored trade re-delivered with
the same natural key (even with a different size) leaves the store
unchanged. -/
theorem C4_witness :
    hasKey (DB.mk [⟨⟨"0xabc", "mkt1", "tx1"⟩, 100, 0, false, 0⟩] [])
        ⟨"0xabc", "mkt1", "tx1"⟩ = true
    ∧ processSingleTrade degenerateClassifier 0
        ⟨[⟨⟨"0xabc", "mkt1", "tx1"⟩, 100, 0, false, 0⟩], []⟩
        ⟨⟨"0xabc", "mkt1", "tx1"⟩, 250, 1/2, 5⟩
      = ⟨[⟨⟨"0xabc", "mkt1", "tx1"⟩, 100, 0, false, 0⟩], []⟩ :=
  ⟨by decide,
   C4_reingest_noop degenerateClassifier 0
     ⟨[⟨⟨"0xabc", "mkt1", "tx1"⟩, 100, 0, false, 0⟩], []⟩
     ⟨⟨"0xabc", "mkt1", "tx1"⟩, 250, 1/2, 5⟩ (by decide)⟩

/-- C3 counterexample: processing a new, deduplicated, unflagged trade (the
first trade of a fresh wallet: fewer than 2 samples, so never flagged)
inserts the Trade row but performs no profile upsert — the profile table
stays empty, refuting that the profile is upserted on every new trade. -/
theorem C3_counterexample :
    (processSingleTrade degenerateClassifier 0 ⟨[], []⟩
        ⟨⟨"0xabc", "mkt1", "tx1"⟩, 100, 1/2, 0⟩).trades.length = 1
    ∧ (processSingleTrade degenerateClassifier 0 ⟨[], []⟩
        ⟨⟨"0xabc", "mkt1", "tx1"⟩, 100, 1/2, 0⟩).profiles = [] := by
  decide

/-- C3 (amended). For every new (deduplicated) trade the Trade row is
inserted, but the owning account's profile is upserted (with its recomputed
score) only when the trade is flagged; for an unflagged new trade the
profile table is left untouched. -/
theorem C3_profile_update_only_if_flagged (cls : Classifier) (now : ℤ)
    (db : DB) (t : IncomingTrade) (h : hasKey db t.key = false) :
    (processSingleTrade cls now db t).trades
        = classifyTrade cls db t :: db.trades
    ∧ ((classifyTrade cls db t).is_flagged = true →
        processSingleTrade cls now db t
          = updateTraderProfile ⟨classifyTrade cls db t :: db.trades,
              db.profiles⟩ t.key.wallet now)
    ∧ ((classifyTrade cls db t).is_flagged = false →
        (processSingleTrade cls now db t).profiles = db.profiles) := by
  refine ⟨?_, fun hf => ?_, fun hf => ?_⟩
  · unfold processSingleTrade
    rw [if_neg (by simp [h])]
    split
    · rfl
    · rfl
  · unfold processSingleTrade
    rw [if_neg (by simp [h])]
    simp only [hf, if_true]
  · unfold processSingleTrade
    rw [if_neg (by simp [h])]
    simp only [hf, Bool.false_eq_true, if_false]

/-- Closed instance of C3_profile_update_only_if_flagged on a fresh store:
the unflagged first trade of a wallet is stored and the profiles are
unchanged. -/
theorem C3_witness :
    hasKey ⟨[], []⟩ ⟨"0xabc", "mkt1", "tx1"⟩ = false
    ∧ (classifyTrade degenerateClassifier ⟨[], []⟩
        ⟨⟨"0xabc", "mkt1", "tx1"⟩, 100, 1/2, 0⟩).is_flagged = false
    ∧ (processSingleTrade degenerateClassifier 0 ⟨[], []⟩
        ⟨⟨"0xabc", "mkt1", "tx1"⟩, 100, 1/2, 0⟩).profiles
      = (DB.mk [] []).profiles :=
  ⟨by decide, by decide,
   (C3_profile_update_only_if_flagged degenerateClassifier 0 ⟨[], []⟩
     ⟨⟨"0xabc", "mkt1", "tx1"⟩, 100, 1/2, 0⟩ (by decide)).2.2 (by decide)⟩

/-- C8. The invariant flagged_trades_count ≤ total_trades holds for every
profile after every sequence of ingestion steps (trade insertion, profile
upsert, score recomputation) from any store already satisfying it — in
particular from the empty store. -/
theorem C8_flagged_le_total (cls : Classifier) (now : ℤ) (db : DB)
    (ts : List IncomingTrade) (h : ProfileInv db) :
    ProfileInv (ts.foldl (processSingleTrade cls now) db) := by
  induction ts generalizing db with
  | nil => exact h
  | cons t rest ih =>
    exact ih _ (profileInv_step cls now db t h)

/-- Closed instance of C8_flagged_le_total: ingesting two trades (the second
a duplicate) from the empty store keeps the invariant. -/
theorem C8_witness :
    ProfileInv ([⟨⟨"0xabc", "mkt1", "tx1"⟩, 100, 1/2, 0⟩,
        ⟨⟨"0xabc", "mkt1", "tx1"⟩, 100, 1/2, 0⟩].foldl
      (processSingleTrade degenerateClassifier 0) ⟨[], []⟩) :=
  C8_flagged_le_total degenerateClassifier 0 ⟨[], []⟩ _
    (by intro p hp; simp at hp)

/-- The 99-trade history of the documented concrete scenario read literally:
every prior trade is exactly 500 dollars. -/
def constantHistory : List ℚ := List.replicate 99 500

/-- A 99-trade history that is nearly constant at 500 dollars but not
degenerate: 49 trades at 501, 49 at 499 and one at 500, giving mean 500 and
sample variance exactly 1 (hence standard deviation 1). -/
def nearConstantHistory : List ℚ :=
  List.replicate 49 501 ++ List.replicate 49 499 ++ [500]

/-- The mean of n copies of a value is that value. -/
theorem meanOf_replicate (n : ℕ) (a : ℚ) (h : n ≠ 0) :
    meanOf (List.replicate n a) = a := by
  have hn : (n : ℚ) ≠ 0 := Nat.cast_ne_zero.2 h
  rw [meanOf, List.sum_replicate, List.length_replicate, nsmul_eq_mul,
    mul_div_cancel_left₀ _ hn]

/-- A constant sample of at least 2 values has sample variance 0. -/
theorem sampleVar_replicate (n : ℕ) (a : ℚ) (h : 2 ≤ n) :
    sampleVar (List.replicate n a) = 0 := by
  have hm := meanOf_replicate n a (by omega)
  have hlen : ¬(List.replicate n a).length < 2 := by
    rw [List.length_replicate]; omega
  rw [sampleVar, if_neg hlen]
  simp only [hm, List.map_replicate, sub_self]
  norm_num

/-- The mean of the near-constant history is 500. -/
theorem meanOf_nearConstant : meanOf nearConstantHistory = 500 := by
  rw [meanOf, nearConstantHistory]
  simp only [List.sum_append, List.sum_replicate, List.sum_cons,
    List.sum_nil, List.length_append, List.length_replicate,
    List.length_cons, List.length_nil, nsmul_eq_mul]
  norm_num

/-- The sample variance of the near-constant history is exactly 1. -/
theorem sampleVar_nearConstant : sampleVar nearConstantHistory = 1 := by
  have hlen : ¬ nearConstantHistory.length < 2 := by
    rw [nearConstantHistory]
    simp only [List.length_append, List.length_replicate, List.length_cons,
      List.length_nil]
    omega
  rw [sampleVar, if_neg hlen]
  simp only [meanOf_nearConstant]
  simp only [nearConstantHistory, List.map_append, List.map_replicate,
    List.map_cons, List.map_nil, List.sum_append, List.sum_replicate,
    List.sum_cons, List.sum_nil, List.length_append, List.length_replicate,
    List.length_cons, List.length_nil, nsmul_eq_mul]
  norm_num

/-- C6 counterexample: with 99 trades of exactly 500 dollars the accumulator
yields sample variance 0, so the classifier takes its stdDev = 0 branch on
the 50000-dollar trade and returns zScore = 0 with isFlagged = false — not a
z-score above 10 with a flag. -/
theorem C6_counterexample :
    sampleVar constantHistory = 0
    ∧ meanOf constantHistory = 500
    ∧ classify 50000 (meanOf constantHistory) 0 3 = (0, false)
    ∧ (classify 50000 (meanOf constantHistory) 0 3).2 = false := by
  refine ⟨sampleVar_replicate 99 500 (by norm_num),
    meanOf_replicate 99 500 (by norm_num), ?_, ?_⟩
  · simp [classify]
  · simp [classify]

/-- C6 (amended). With a 99-trade history of mean 500 and a small positive
sample standard deviation (49 trades at 501, 49 at 499, one at 500: variance
exactly 1, std 1), the 50000-dollar trade gets zScore = 49500 > 10 and is
flagged; Component A at 1 flagged of 100 trades is 0.4, Component B caps at
30 since the average flagged z is at least 9, and the score before the
recency component is 30.4. -/
theorem C6_scenario :
    meanOf nearConstantHistory = 500
    ∧ sampleVar nearConstantHistory = 1
    ∧ (1 : ℚ) ^ 2 = sampleVar nearConstantHistory
    ∧ classify 50000 (meanOf nearConstantHistory) 1 3 = (49500, true)
    ∧ (10 : ℚ) < 49500
    ∧ componentA 100 1 = 2 / 5
    ∧ componentB 1 49500 = 30
    ∧ insiderScore 100 1 49500 0 0 = 152 / 5 := by
  have hA : componentA 100 1 = 2 / 5 := by
    rw [componentA, if_neg (by norm_num)]
    rw [min_eq_left (by norm_num)]
    norm_num
  have hB : componentB 1 49500 = 30 := by
    rw [componentB, if_neg (by norm_num)]
    rw [min_eq_right (by norm_num)]
  refine ⟨meanOf_nearConstant, sampleVar_nearConstant, ?_, ?_,
    by norm_num, hA, hB, ?_⟩
  · rw [sampleVar_nearConstant]; norm_num
  · rw [meanOf_nearConstant, classify, if_pos (by norm_num : (0:ℚ) < 1)]
    have hz : ((50000 : ℚ) - 500) / 1 = 49500 := by norm_num
    rw [hz]
    have habs : |(49500 : ℚ)| = 49500 := abs_of_nonneg (by norm_num)
    simp [habs]
    norm_num
  · rw [insiderScore, hA, hB, componentC, if_pos rfl]
    rw [min_eq_left (by norm_num)]
    norm_num

/-- A markets-table row with the metric columns and defaults added by the
migration (part_005): counts default 0, volatility and suspicion scores
default 0.0, prices and liquidity NULL. -/
structure MarketRow where
  category : Option String
  suspicious_trades_count : ℕ
  total_trades_count : ℕ
  total_volume : ℚ
  unique_traders_count : ℕ
  current_yes_price : Option ℚ
  current_no_price : Option ℚ
  price_change_24h : Option ℚ
  volatility_score : ℚ
  suspicion_score : ℚ
  liquidity_usd : Option ℚ
deriving DecidableEq

/-- A freshly created markets row carrying the migration defaults. -/
def freshMarketRow : MarketRow :=
  ⟨none, 0, 0, 0, 0, none, none, none, 0, 0, none⟩

/-- One trade of a market as seen by the aggregator. -/
structure MarketTrade where
  price : ℚ
  size : ℚ
  flagged : Bool
deriving DecidableEq

/-- Modelled from the spec: the 24-hour price-movement magnitude of a
market, from its trades in the window (oldest first); 0 with no trades. -/
def priceChangeMagnitude (ts : List MarketTrade) : ℚ :=
  match ts.map fun t => t.price with
  | [] => 0
  | p :: ps => |ps.getLastD p - p|

/-- Modelled from the spec: the volatility score, monotone in the
price-change magnitude and bounded to [0,100] (prediction-market prices live
in [0,1], so a swing of one half already saturates the scale). -/
def marketVolatility (ts : List MarketTrade) : ℚ :=
  min (priceChangeMagnitude ts * 200) 100

/-- Modelled from the spec: the Market Suspicion Aggregator, a weighted sum
(weights 0.7 / 0.3) of the flagged-trade ratio and the volatility, bounded
to [0,100] and recomputed from scratch each cycle. -/
def marketSuspicion (ts : List MarketTrade) : ℚ :=
  if ts.length = 0 then 0
  else
    min (((ts.filter fun t => t.flagged).length : ℚ) / (ts.length : ℚ) * 70
      + marketVolatility ts * 3 / 10) 100

/-- C9. A market with zero trades gets volatilityScore = 0 and
suspicionScore = 0 from the aggregator, matching the schema defaults of 0.0
on a freshly created markets row. -/
theorem C9_zero_trades_zero_scores (ts : List MarketTrade)
    (h : ts.length = 0) :
    marketVolatility ts = 0 ∧ marketSuspicion ts = 0
    ∧ freshMarketRow.volatility_score = 0
    ∧ freshMarketRow.suspicion_score = 0
    ∧ freshMarketRow.total_trades_count = 0 := by
  rw [List.length_eq_zero] at h
  subst h
  refine ⟨?_, ?_, rfl, rfl, rfl⟩
  · simp [marketVolatility, priceChangeMagnitude]
  · simp [marketSuspicion]

/-- Closed instance of C9_zero_trades_zero_scores at the empty trade
list. -/
theorem C9_witness :
    ([] : List MarketTrade).length = 0
    ∧ marketVolatility [] = 0 ∧ marketSuspicion [] = 0 :=
  ⟨rfl, (C9_zero_trades_zero_scores [] rfl).1,
   (C9_zero_trades_zero_scores [] rfl).2.1⟩

/-- An HTTP response as the TypeScript client sees it: the ok flag and the
parsed JSON body. -/
structure FetchResponse (α : Type) where
  ok : Bool
  body : α

/-- Whether a client call throws. -/
def throwsOn {α : Type} (r : Except String α) : Bool :=
  match r with
  | .error _ => true
  | .ok _ => false

/-- getTraders response handling (lib/api.ts): throw on a non-ok response,
otherwise return the parsed body. -/
def getTraders {α : Type} (resp : FetchResponse α) : Except String α :=
  if !resp.ok then .error "Failed to fetch traders" else .ok resp.body

/-- getTrendingTrades response handling (lib/api.ts). -/
def getTrendingTrades {α : Type} (resp : FetchResponse α) :
    Except String α :=
  if !resp.ok then .error "Failed to fetch trending trades"
  else .ok resp.body

/-- getTraderProfile response handling (lib/api.ts). -/
def getTraderProfile {α : Type} (resp : FetchResponse α) :
    Except String α :=
  if !resp.ok then .error "Failed to fetch trader profile"
  else .ok resp.body

/-- getTraderTrades response handling (lib/api.ts). -/
def getTraderTrades {α : Type} (resp : FetchResponse α) :
    Except String α :=
  if !resp.ok then .error "Failed to fetch trader trades"
  else .ok resp.body

/-- getDashboardStats response handling (lib/api.ts). -/
def getDashboardStats {α : Type} (resp : FetchResponse α) :
    Except String α :=
  if !resp.ok then .error "Failed to fetch dashboard stats"
  else .ok resp.body

/-- getMarketWatch response handling (lib/api.ts). -/
def getMarketWatch {α : Type} (resp : FetchResponse α) :
    Except String α :=
  if !resp.ok then .error "Failed to fetch market watch data"
  else .ok resp.body

/-- The default API base of lib/api.ts. -/
def API_BASE : String := "http://localhost:8000"

/-- The request URL getTraders builds from its arguments. -/
def getTradersUrl (baseUrl : String) (minScore limit : ℤ) : String :=
  baseUrl ++ "/api/traders?min_score=" ++ toString minScore
    ++ "&limit=" ++ toString limit

/-- The request URL of a no-argument getTraders call: the declared defaults
minScore = 0 and limit = 50. -/
def getTradersDefaultUrl (baseUrl : String) : String :=
  getTradersUrl baseUrl 0 50

/-- C10. Every accessor of the PolyEdgeAPI client throws exactly when the
response's ok field is false, otherwise returns the response's parsed body;
and a no-argument getTraders call requests min_score=0 and limit=50. -/
theorem C10_api_client {α : Type} (r : FetchResponse α) :
    (throwsOn (getTraders r) = !r.ok
      ∧ throwsOn (getTrendingTrades r) = !r.ok
      ∧ throwsOn (getTraderProfile r) = !r.ok
      ∧ throwsOn (getTraderTrades r) = !r.ok
      ∧ throwsOn (getDashboardStats r) = !r.ok
      ∧ throwsOn (getMarketWatch r) = !r.ok)
    ∧ (r.ok = true →
        getTraders r = .ok r.body
        ∧ getTrendingTrades r = .ok r.body
        ∧ getTraderProfile r = .ok r.body
        ∧ getTraderTrades r = .ok r.body
        ∧ getDashboardStats r = .ok r.body
        ∧ getMarketWatch r = .ok r.body)
    ∧ getTradersDefaultUrl API_BASE
        = "http://localhost:8000/api/traders?min_score=0&limit=50" := by
  cases r with
  | mk ok body =>
    cases ok
    · refine ⟨⟨rfl, rfl, rfl, rfl, rfl, rfl⟩, ?_, ?_⟩
      · intro h
        exact absurd h (by simp)
      · rfl
    · refine ⟨⟨rfl, rfl, rfl, rfl, rfl, rfl⟩, ?_, ?_⟩
      · intro _
        exact ⟨rfl, rfl, rfl, rfl, rfl, rfl⟩
      · rfl

/-- Closed instance of C10_api_client: a non-ok response makes getTraders
throw, and an ok response returns the body. -/
theorem C10_witness :
    throwsOn (getTraders (FetchResponse.mk false (0 : ℕ))) = !(false : Bool)
    ∧ (FetchResponse.mk true (0 : ℕ)).ok = true
    ∧ getTraders (FetchResponse.mk true (0 : ℕ)) = Except.ok 0 :=
  ⟨(C10_api_client (FetchResponse.mk false (0 : ℕ))).1.1, rfl,
   ((C10_api_client (FetchResponse.mk true (0 : ℕ))).2.1 rfl).1⟩

end PolyEdge
